import Mathlib

/-!
A shallow embedding of the assessment-and-validation pipeline of the
`tumor_board_v0` repository (Python), together with proofs of the
specification's claims about it.

The embedding follows the source files:
  * `src/tumorboard/models/assessment.py`  — tiers, therapies, assessments
  * `src/tumorboard/models/validation.py`  — validation results and metrics
  * `src/tumorboard/llm/service.py`        — JSON extraction, schema coercion,
                                             retried completion call
  * `src/tumorboard/engine.py`             — batch orchestration

Conventions: Python floats are modelled as rationals (`ℚ`); Python strings
are `String` except where character-level slicing matters (the code-fence
stripping of `_parse_json_response`), where `List Char` is used; a Python
`dict` with insertion-order semantics is an association list; raising an
exception is `Except.error` / `Option.none`.
-/

namespace TumorBoard

/-! ## `models/assessment.py` -/

/-- The `ActionabilityTier` string enum (AMP/ASCO/CAP tiers). -/
inductive ActionabilityTier where
  | tierI
  | tierII
  | tierIII
  | tierIV
  | unknown
deriving DecidableEq, Repr

/-- The `.value` of each enum member, as in the Python source. -/
def ActionabilityTier.value : ActionabilityTier → String
  | .tierI => "Tier I"
  | .tierII => "Tier II"
  | .tierIII => "Tier III"
  | .tierIV => "Tier IV"
  | .unknown => "Unknown"

/-- `ActionabilityTier(s)`: pydantic/`enum` lookup of a member by its string
value; `none` models the `ValueError` raised on an unrecognized string. -/
def ActionabilityTier.ofValue (s : String) : Option ActionabilityTier :=
  if s = "Tier I" then some .tierI
  else if s = "Tier II" then some .tierII
  else if s = "Tier III" then some .tierIII
  else if s = "Tier IV" then some .tierIV
  else if s = "Unknown" then some .unknown
  else none

/-- `RecommendedTherapy` record. -/
structure RecommendedTherapy where
  drug_name : String
  evidence_level : Option String := none
  approval_status : Option String := none
  clinical_context : Option String := none
deriving DecidableEq, Repr

/-- `round(v, 3)` on rationals: nearest multiple of `1/1000` (the float
tie-breaking subtleties of Python's `round` are abstracted to `round`). -/
def round3 (v : ℚ) : ℚ := (round (v * 1000) : ℤ) / 1000

/-- The `validate_confidence` field validator combined with the
`Field(ge=0.0, le=1.0)` constraint: values outside `[0, 1]` raise
(`none`); in-range values are stored rounded to 3 decimal places. -/
def validate_confidence (v : ℚ) : Option ℚ :=
  if 0 ≤ v ∧ v ≤ 1 then some (round3 v) else none

/-- `ActionabilityAssessment` record (pydantic model). -/
structure ActionabilityAssessment where
  gene : String
  variant : String
  tumor_type : String
  tier : ActionabilityTier
  confidence_score : ℚ
  summary : String
  recommended_therapies : List RecommendedTherapy
  rationale : String
  evidence_strength : Option String
  clinical_trials_available : Bool
  references : List String
deriving DecidableEq, Repr

/-- Constructing an `ActionabilityAssessment(...)`: pydantic runs the
`confidence_score` validation on construction, so construction fails
(`none`) exactly when that validator raises. -/
def ActionabilityAssessment.create (gene variant tumor_type : String)
    (tier : ActionabilityTier) (confidence_score : ℚ) (summary : String)
    (recommended_therapies : List RecommendedTherapy) (rationale : String)
    (evidence_strength : Option String) (clinical_trials_available : Bool)
    (references : List String) : Option ActionabilityAssessment :=
  match validate_confidence confidence_score with
  | none => none
  | some c =>
      some { gene := gene, variant := variant, tumor_type := tumor_type,
             tier := tier, confidence_score := c, summary := summary,
             recommended_therapies := recommended_therapies,
             rationale := rationale, evidence_strength := evidence_strength,
             clinical_trials_available := clinical_trials_available,
             references := references }

/-! ## `models/validation.py` -/

/-- `ValidationResult` record. -/
structure ValidationResult where
  gene : String
  variant : String
  tumor_type : String
  expected_tier : ActionabilityTier
  predicted_tier : ActionabilityTier
  is_correct : Bool
  confidence_score : ℚ
  assessment : ActionabilityAssessment
deriving DecidableEq, Repr

/-- The `tier_order` dict of `ValidationResult.tier_distance`
(`.get(tier, -1)` — the dict is total, so the default is never taken). -/
def tier_order : ActionabilityTier → Int
  | .tierI => 0
  | .tierII => 1
  | .tierIII => 2
  | .tierIV => 3
  | .unknown => -1

/-- The `tier_distance` property: ordinal distance between expected and
predicted tier, `999` when either side maps to `-1` (Unknown). -/
def ValidationResult.tier_distance (r : ValidationResult) : Int :=
  let expected_idx := tier_order r.expected_tier
  let predicted_idx := tier_order r.predicted_tier
  if expected_idx = -1 ∨ predicted_idx = -1 then 999
  else ((expected_idx - predicted_idx).natAbs : Int)

/-- `TierMetrics` record with its counter defaults. -/
structure TierMetrics where
  tier : ActionabilityTier
  true_positives : ℕ := 0
  false_positives : ℕ := 0
  false_negatives : ℕ := 0
  precision : ℚ := 0
  recall_score : ℚ := 0
  f1_score : ℚ := 0
deriving DecidableEq, Repr

/-- `TierMetrics.calculate` (the in-place mutation is modelled by returning
the updated record). -/
def TierMetrics.calculate (m : TierMetrics) : TierMetrics :=
  let precision : ℚ :=
    if m.true_positives + m.false_positives > 0 then
      (m.true_positives : ℚ) / ((m.true_positives : ℚ) + (m.false_positives : ℚ))
    else 0
  let rcl : ℚ :=
    if m.true_positives + m.false_negatives > 0 then
      (m.true_positives : ℚ) / ((m.true_positives : ℚ) + (m.false_negatives : ℚ))
    else 0
  let f1 : ℚ :=
    if precision + rcl > 0 then 2 * (precision * rcl) / (precision + rcl)
    else 0
  { m with precision := precision, recall_score := rcl, f1_score := f1 }

/-- One entry of `failure_analysis`. The Python code stores a
`dict[str, str]`; the numeric fields (`tier_distance`, `confidence`) are
kept at their pre-formatting values here, the string formatting being
presentation only. -/
structure FailureRecord where
  variant : String
  tumor_type : String
  expected : String
  predicted : String
  tier_distance : Int
  confidence : ℚ
  summary : String
deriving DecidableEq, Repr

/-- The failure-analysis record appended by `add_result` for an incorrect
result, including the 200-character truncation of the summary. -/
def failureRecord (r : ValidationResult) : FailureRecord :=
  { variant := r.gene ++ " " ++ r.variant,
    tumor_type := r.tumor_type,
    expected := r.expected_tier.value,
    predicted := r.predicted_tier.value,
    tier_distance := r.tier_distance,
    confidence := r.confidence_score,
    summary := if r.assessment.summary.length > 200 then
        (r.assessment.summary.take 200) ++ "..."
      else r.assessment.summary }

/-- Lookup in the `tier_metrics` dict (association list, insertion order). -/
def getTM : List (String × TierMetrics) → String → Option TierMetrics
  | [], _ => none
  | (k, v) :: rest, key => if k = key then some v else getTM rest key

/-- Assignment `d[key] = v` on the dict: replace in place when the key is
present, append otherwise. -/
def setTM : List (String × TierMetrics) → String → TierMetrics →
    List (String × TierMetrics)
  | [], key, v => [(key, v)]
  | (k, v0) :: rest, key, v =>
      if k = key then (key, v) :: rest else (k, v0) :: setTM rest key v

/-- `d[key].field += 1`-style update: modify the entry when present. -/
def modifyTM (l : List (String × TierMetrics)) (key : String)
    (f : TierMetrics → TierMetrics) : List (String × TierMetrics) :=
  match getTM l key with
  | some tm => setTM l key (f tm)
  | none => l

/-- `ValidationMetrics` record with its defaults. -/
structure ValidationMetrics where
  total_cases : ℕ := 0
  correct_predictions : ℕ := 0
  accuracy : ℚ := 0
  average_confidence : ℚ := 0
  tier_metrics : List (String × TierMetrics) := []
  failure_analysis : List FailureRecord := []
deriving DecidableEq, Repr

/-- A freshly constructed `ValidationMetrics()`. -/
def ValidationMetrics.init : ValidationMetrics := {}

/-- `...true_positives += 1` on a tier's entry. -/
def tpAdd (tm : TierMetrics) : TierMetrics :=
  { tm with true_positives := tm.true_positives + 1 }

/-- `...false_positives += 1` on a tier's entry. -/
def fpAdd (tm : TierMetrics) : TierMetrics :=
  { tm with false_positives := tm.false_positives + 1 }

/-- `...false_negatives += 1` on a tier's entry. -/
def fnAdd (tm : TierMetrics) : TierMetrics :=
  { tm with false_negatives := tm.false_negatives + 1 }

/-- The body of the `for tier in [expected, predicted]` initialization loop
of `add_result`: create the tier's entry when absent. -/
def ValidationMetrics.ensureTier (m : ValidationMetrics)
    (tier : ActionabilityTier) : ValidationMetrics :=
  match getTM m.tier_metrics tier.value with
  | some _ => m
  | none => { m with tier_metrics := (setTM m.tier_metrics tier.value { tier := tier }) }

/-- `ValidationMetrics.add_result`, step by step as in the source. -/
def ValidationMetrics.add_result (m : ValidationMetrics)
    (result : ValidationResult) : ValidationMetrics :=
  let m := { m with total_cases := m.total_cases + 1 }
  let m := if result.is_correct then
      { m with correct_predictions := m.correct_predictions + 1 }
    else m
  let expected_key := result.expected_tier.value
  let predicted_key := result.predicted_tier.value
  -- initialize tier metrics if needed, in iteration order
  let m := [result.expected_tier, result.predicted_tier].foldl
    ValidationMetrics.ensureTier m
  -- update confusion matrix counts
  if result.is_correct then
    { m with tier_metrics := (modifyTM m.tier_metrics expected_key tpAdd) }
  else
    let m := { m with tier_metrics := (modifyTM m.tier_metrics expected_key fnAdd) }
    let m := { m with tier_metrics := (modifyTM m.tier_metrics predicted_key fpAdd) }
    { m with failure_analysis := m.failure_analysis ++ [failureRecord result] }

/-- `ValidationMetrics.calculate(results)`. -/
def ValidationMetrics.calculate (m : ValidationMetrics)
    (results : List ValidationResult) : ValidationMetrics :=
  if results.isEmpty then m
  else
    let m := results.foldl ValidationMetrics.add_result m
    let m := if m.total_cases > 0 then
        { m with accuracy := (m.correct_predictions : ℚ) / (m.total_cases : ℚ) }
      else m
    let total_confidence := (results.map (fun r => r.confidence_score)).sum
    let m := { m with average_confidence := total_confidence / (results.length : ℚ) }
    { m with tier_metrics := m.tier_metrics.map (fun kv => (kv.1, kv.2.calculate)) }

/-! ## `llm/service.py` -/

/-- The parsed JSON object handed to `_validate_and_create_assessment`
(`response_data: dict[str, Any]`). Each key of the Python dict that the
method reads is modelled as an optional field, `none` meaning the key is
absent; values carry the JSON types the method expects. The `gene`,
`variant` and `tumor_type` fields model keys the model's JSON may contain
but the method never reads. -/
structure ResponseData where
  tier : Option String := none
  confidence_score : Option ℚ := none
  summary : Option String := none
  rationale : Option String := none
  evidence_strength : Option String := none
  clinical_trials_available : Option Bool := none
  recommended_therapies : Option (List RecommendedTherapy) := none
  references : Option (List String) := none
  gene : Option String := none
  variant : Option String := none
  tumor_type : Option String := none
deriving DecidableEq, Repr

/-- `tier = ActionabilityTier(tier_str)` guarded by
`except ValueError: ... tier = ActionabilityTier.UNKNOWN`. -/
def parse_tier_with_fallback (tier_str : String) : ActionabilityTier :=
  match ActionabilityTier.ofValue tier_str with
  | some t => t
  | none => ActionabilityTier.unknown

/-- `LLMService._validate_and_create_assessment`: mandatory `tier` key,
tier-string fallback to `Unknown`, per-field defaults, and the single
unified `LLMServiceError` (modelled by `Except.error`) on failure. -/
def validate_and_create_assessment (response_data : ResponseData)
    (gene variant tumor_type : String) :
    Except String ActionabilityAssessment :=
  match response_data.tier with
  | none => .error "Failed to create assessment: Missing required field: tier"
  | some tier_str =>
    match ActionabilityAssessment.create gene variant tumor_type
        (parse_tier_with_fallback tier_str)
        (response_data.confidence_score.getD (1/2 : ℚ))
        (response_data.summary.getD "No summary provided")
        (response_data.recommended_therapies.getD [])
        (response_data.rationale.getD "No rationale provided")
        response_data.evidence_strength
        (response_data.clinical_trials_available.getD false)
        (response_data.references.getD []) with
    | some a => .ok a
    | none => .error "Failed to validate LLM response: confidence out of range"

/-- Python `str.strip()` whitespace test (ASCII whitespace; the raw model
text is ASCII-delimited here). -/
def pyIsSpace (c : Char) : Bool :=
  c == ' ' || c == '\t' || c == '\n' || c == '\r' || c == '\x0b' || c == '\x0c'

/-- Python `str.strip()` on a character list. -/
def pyStrip (s : List Char) : List Char :=
  ((s.dropWhile pyIsSpace).reverse.dropWhile pyIsSpace).reverse

/-- The fence-stripping prelude of `_parse_json_response`: strip, remove a
leading ```` ```json ```` or ```` ``` ```` marker, remove a trailing
```` ``` ```` marker, strip again. -/
def stripFences (response : List Char) : List Char :=
  let r1 := pyStrip response
  let r2 := if ("```json".toList).isPrefixOf r1 then r1.drop 7
    else if ("```".toList).isPrefixOf r1 then r1.drop 3
    else r1
  let r3 := if ("```".toList).isSuffixOf r2 then r2.take (r2.length - 3) else r2
  pyStrip r3

/-- `LLMService._parse_json_response`, parameterized by the `json.loads`
parser (`loads s = none` models `json.JSONDecodeError`): fence stripping,
then a parse whose failure raises the unified `LLMServiceError`. -/
def parse_json_response (loads : List Char → Option ResponseData)
    (response : List Char) : Except String ResponseData :=
  match loads (stripFences response) with
  | some d => .ok d
  | none => .error "Invalid JSON response from LLM"

/-- One attempt of the body of `_call_llm`: the underlying completion call
either raises (`Except.error`) or returns content; empty content is raised
as a failure (`LLMServiceError("Empty response from LLM")`), and every
exception is re-raised wrapped as `LLMServiceError`. -/
def attempt_once (call : Except String (List Char)) : Except String (List Char) :=
  match call with
  | .error e => .error ("LLM API call failed: " ++ e)
  | .ok content =>
      if content.isEmpty then
        .error "LLM API call failed: Empty response from LLM"
      else .ok content

/-- `tenacity.wait_exponential(multiplier, min, max)` evaluated after the
`attempt_number`-th attempt: `multiplier * 2 ^ attempt_number` clamped into
`[min, max]` (time units abstracted to naturals). -/
def waitExponential (multiplier min_ max_ attempt_number : ℕ) : ℕ :=
  Nat.max min_ (Nat.min (multiplier * 2 ^ attempt_number) max_)

/-- The wait schedule of the `@retry` decorator on `_call_llm`:
`wait_exponential(multiplier=1, min=2, max=10)`. -/
def retryWait (attempt_number : ℕ) : ℕ := waitExponential 1 2 10 attempt_number

/-- Outcome of running `_call_llm` on an oracle of per-attempt completion
results: the final result, the number of attempts made, and the backoff
waits slept between attempts. -/
structure CallTrace where
  result : Except String (List Char)
  attempts : ℕ
  waits : List ℕ
deriving Repr

/-- The retry loop of the `@retry(stop=stop_after_attempt(...))` decorator:
`fuel` is the number of attempts still allowed, `i` the 0-based index of
the next attempt. On failure with attempts remaining, sleep
`retryWait (i+1)` and try again; exhausting the budget surfaces the last
wrapped error. -/
def retryLoop (oracle : ℕ → Except String (List Char)) :
    ℕ → ℕ → List ℕ → CallTrace
  | 0, i, waits => { result := .error "no attempts permitted", attempts := i, waits := waits }
  | fuel + 1, i, waits =>
    match attempt_once (oracle i) with
    | .ok content => { result := .ok content, attempts := i + 1, waits := waits }
    | .error e =>
        if fuel = 0 then { result := .error e, attempts := i + 1, waits := waits }
        else retryLoop oracle fuel (i + 1) (waits ++ [retryWait (i + 1)])

/-- `LLMService._call_llm` under its decorator
`@retry(retry_if_exception_type(Exception), stop_after_attempt(3),
wait_exponential(multiplier=1, min=2, max=10))`. -/
def call_llm (oracle : ℕ → Except String (List Char)) : CallTrace :=
  retryLoop oracle 3 0 []

/-- `LLMService.assess_variant`, abstracting the completion endpoint as an
oracle of per-attempt results and `json.loads` as `loads`: the retried
completion call, then (once, outside the retry loop) JSON extraction and
schema coercion. Returns the outcome together with the number of
completion attempts made. -/
def assess_variant (oracle : ℕ → Except String (List Char))
    (loads : List Char → Option ResponseData)
    (gene variant tumor_type : String) :
    Except String ActionabilityAssessment × ℕ :=
  let t := call_llm oracle
  match t.result with
  | .error e => (.error e, t.attempts)
  | .ok response =>
      match parse_json_response loads response with
      | .error e => (.error e, t.attempts)
      | .ok response_data =>
          (validate_and_create_assessment response_data gene variant tumor_type,
           t.attempts)

/-! ## `engine.py` -/

/-- `AssessmentEngine.batch_assess`. `asyncio.gather(*tasks,
return_exceptions=True)` returns one result per task, aligned with the
input order whatever the completion order, so it is the map of the
per-item outcome function (`assess`) over the inputs; the filtering loop
then drops the exceptions and appends the successes in order. -/
def batch_assess {V A : Type} (assess : V → Except String A)
    (variants : List V) : List A :=
  let results := variants.map assess
  results.foldl
    (fun assessments result =>
      match result with
      | .error _ => assessments
      | .ok a => assessments ++ [a]) []

/-! ## Shared sample data (used by witnesses) -/

/-- A concrete, schema-valid assessment. -/
def sampleAssessment : ActionabilityAssessment :=
  { gene := "BRAF", variant := "V600E", tumor_type := "Melanoma",
    tier := .tierII, confidence_score := 4/5, summary := "Test",
    recommended_therapies := [], rationale := "Test", evidence_strength := none,
    clinical_trials_available := false, references := [] }

/-- A concrete validation result with the given tiers and correctness flag. -/
def sampleResult (e p : ActionabilityTier) (c : Bool) : ValidationResult :=
  { gene := "BRAF", variant := "V600E", tumor_type := "Melanoma",
    expected_tier := e, predicted_tier := p, is_correct := c,
    confidence_score := 4/5, assessment := sampleAssessment }

/-! ## Helper lemmas -/

/-- `tier_distance` depends only on the two tier fields. -/
def tdist (e p : ActionabilityTier) : Int :=
  if tier_order e = -1 ∨ tier_order p = -1 then 999
  else ((tier_order e - tier_order p).natAbs : Int)

theorem tier_distance_eq_tdist (r : ValidationResult) :
    r.tier_distance = tdist r.expected_tier r.predicted_tier := rfl

theorem round_nonneg_of_nonneg {x : ℚ} (h : 0 ≤ x) : 0 ≤ round x := by
  rw [round_eq]
  exact Int.le_floor.mpr (by push_cast; linarith)

theorem round_le_thousand {x : ℚ} (h : x ≤ 1000) : round x ≤ 1000 := by
  rw [round_eq]
  have h1 : ⌊x + 1 / 2⌋ ≤ ⌊(1000 : ℚ) + 1 / 2⌋ := Int.floor_le_floor (by linarith)
  have h2 : ⌊(1000 : ℚ) + 1 / 2⌋ = 1000 := by
    rw [Int.floor_eq_iff]
    constructor <;> norm_num
  omega

theorem round3_mem_unit {v : ℚ} (h0 : 0 ≤ v) (h1 : v ≤ 1) :
    0 ≤ round3 v ∧ round3 v ≤ 1 := by
  unfold round3
  have hl : (0 : ℤ) ≤ round (v * 1000) := round_nonneg_of_nonneg (by linarith)
  have hu : round (v * 1000) ≤ 1000 := round_le_thousand (by linarith)
  constructor
  · positivity
  · rw [div_le_one (by norm_num)]
    exact_mod_cast hu

/-! ## Claims -/

/-- C4: `tier_distance` is symmetric under swapping expected and predicted
tiers; when both tiers are among the four ordered tiers it is the absolute
difference of their positions (I=0, II=1, III=2, IV=3) and lies in
{0,1,2,3}; whenever either side is Unknown it equals the sentinel 999. -/
theorem C4_tier_distance_symmetric_bounded (r r' : ValidationResult)
    (he : r'.expected_tier = r.predicted_tier)
    (hp : r'.predicted_tier = r.expected_tier) :
    r'.tier_distance = r.tier_distance ∧
    (r.expected_tier ≠ ActionabilityTier.unknown →
      r.predicted_tier ≠ ActionabilityTier.unknown →
      r.tier_distance =
        ((tier_order r.expected_tier - tier_order r.predicted_tier).natAbs : Int) ∧
      r.tier_distance ∈ ([0, 1, 2, 3] : List Int)) ∧
    ((r.expected_tier = ActionabilityTier.unknown ∨
      r.predicted_tier = ActionabilityTier.unknown) → r.tier_distance = 999) := by
  rw [tier_distance_eq_tdist, tier_distance_eq_tdist, he, hp]
  generalize r.expected_tier = e
  generalize r.predicted_tier = p
  cases e <;> cases p <;> decide

/-- Witness for C4 at concrete tiers (expected I / predicted II, and the
swapped pair). -/
theorem C4_tier_distance_symmetric_bounded_witness :
    (sampleResult .tierII .tierI false).expected_tier =
      (sampleResult .tierI .tierII false).predicted_tier ∧
    (sampleResult .tierII .tierI false).predicted_tier =
      (sampleResult .tierI .tierII false).expected_tier ∧
    ((sampleResult .tierII .tierI false).tier_distance =
      (sampleResult .tierI .tierII false).tier_distance ∧
     ((sampleResult .tierI .tierII false).expected_tier ≠ ActionabilityTier.unknown →
       (sampleResult .tierI .tierII false).predicted_tier ≠ ActionabilityTier.unknown →
       (sampleResult .tierI .tierII false).tier_distance =
         ((tier_order (sampleResult .tierI .tierII false).expected_tier -
           tier_order (sampleResult .tierI .tierII false).predicted_tier).natAbs : Int) ∧
       (sampleResult .tierI .tierII false).tier_distance ∈ ([0, 1, 2, 3] : List Int)) ∧
     (((sampleResult .tierI .tierII false).expected_tier = ActionabilityTier.unknown ∨
       (sampleResult .tierI .tierII false).predicted_tier = ActionabilityTier.unknown) →
       (sampleResult .tierI .tierII false).tier_distance = 999)) :=
  ⟨rfl, rfl,
   C4_tier_distance_symmetric_bounded (sampleResult .tierI .tierII false)
     (sampleResult .tierII .tierI false) rfl rfl⟩

/-- C8: constructing an `ActionabilityAssessment` with `confidence_score`
outside `[0, 1]` fails and never clamps; every successfully constructed
assessment has `0 ≤ confidence_score ≤ 1`, stored rounded to 3 decimal
places (a multiple of `1/1000`). -/
theorem C8_confidence_validated (g v t : String) (tier : ActionabilityTier)
    (conf : ℚ) (s rat : String) (ths : List RecommendedTherapy)
    (es : Option String) (cta : Bool) (refs : List String) :
    (¬(0 ≤ conf ∧ conf ≤ 1) →
      ActionabilityAssessment.create g v t tier conf s ths rat es cta refs = none) ∧
    (∀ a, ActionabilityAssessment.create g v t tier conf s ths rat es cta refs = some a →
      0 ≤ a.confidence_score ∧ a.confidence_score ≤ 1 ∧
      a.confidence_score = round3 conf ∧
      ∃ k : ℤ, a.confidence_score = (k : ℚ) / 1000) := by
  unfold ActionabilityAssessment.create validate_confidence
  by_cases h : 0 ≤ conf ∧ conf ≤ 1
  · refine ⟨fun hc => absurd h hc, ?_⟩
    intro a ha
    simp only [if_pos h] at ha
    injection ha with ha
    subst ha
    exact ⟨(round3_mem_unit h.1 h.2).1, (round3_mem_unit h.1 h.2).2, rfl,
      round (conf * 1000), rfl⟩
  · refine ⟨fun _ => ?_, fun a ha => ?_⟩
    · simp [if_neg h]
    · simp [if_neg h] at ha

/-- Witness for C8: out-of-range `1.5` fails construction; in-range `0.95`
succeeds with a confidence in `[0, 1]`. -/
theorem C8_confidence_validated_witness :
    (¬((0 : ℚ) ≤ 3/2 ∧ (3/2 : ℚ) ≤ 1) →
      ActionabilityAssessment.create "BRAF" "V600E" "Melanoma" .tierI (3/2)
        "s" [] "r" none false [] = none) ∧
    (∀ a, ActionabilityAssessment.create "BRAF" "V600E" "Melanoma" .tierI (3/2)
        "s" [] "r" none false [] = some a →
      0 ≤ a.confidence_score ∧ a.confidence_score ≤ 1 ∧
      a.confidence_score = round3 (3/2) ∧
      ∃ k : ℤ, a.confidence_score = (k : ℚ) / 1000) :=
  C8_confidence_validated "BRAF" "V600E" "Melanoma" .tierI (3/2) "s" "r" []
    none false []

theorem batch_foldl_eq {A : Type} (l : List (Except String A)) (acc : List A) :
    l.foldl (fun assessments result => match result with
      | .error _ => assessments
      | .ok a => assessments ++ [a]) acc
    = acc ++ l.filterMap Except.toOption := by
  induction l generalizing acc with
  | nil => simp
  | cons x xs ih =>
      cases x with
      | error e => simp [List.foldl_cons, ih, Except.toOption]
      | ok a => simp [List.foldl_cons, ih, Except.toOption]

/-- C2: one item's failure never removes or aborts the others:
`batch_assess` returns exactly the successful subset of the per-item
outcomes, in input order, with length at most the input length; for 5
inputs where exactly the third fails, it returns the assessments of
inputs 1, 2, 4, 5 in that order. -/
theorem C2_batch_assess_failure_isolation (V A : Type) :
    (∀ (assess : V → Except String A) (variants : List V),
      batch_assess assess variants =
        (variants.map assess).filterMap Except.toOption ∧
      (batch_assess assess variants).length ≤ variants.length) ∧
    (∀ (assess : V → Except String A) (v₁ v₂ v₃ v₄ v₅ : V) (a₁ a₂ a₄ a₅ : A)
      (e : String),
      assess v₁ = .ok a₁ → assess v₂ = .ok a₂ → assess v₃ = .error e →
      assess v₄ = .ok a₄ → assess v₅ = .ok a₅ →
      batch_assess assess [v₁, v₂, v₃, v₄, v₅] = [a₁, a₂, a₄, a₅]) := by
  have hmain : ∀ (assess : V → Except String A) (variants : List V),
      batch_assess assess variants =
        (variants.map assess).filterMap Except.toOption := by
    intro assess variants
    unfold batch_assess
    exact batch_foldl_eq (variants.map assess) []
  refine ⟨fun assess variants => ⟨hmain assess variants, ?_⟩,
    fun assess v₁ v₂ v₃ v₄ v₅ a₁ a₂ a₄ a₅ e h₁ h₂ h₃ h₄ h₅ => ?_⟩
  · rw [hmain]
    calc ((variants.map assess).filterMap Except.toOption).length
        ≤ (variants.map assess).length := List.length_filterMap_le _ _
      _ = variants.length := List.length_map _ _
  · rw [hmain]
    simp [h₁, h₂, h₃, h₄, h₅, Except.toOption]

/-- Witness for C2 at a concrete 5-input batch whose third item fails. -/
theorem C2_batch_assess_failure_isolation_witness :
    (fun n => if n = 3 then (.error "boom" : Except String ℕ) else .ok (n * 10))
        (1 : ℕ) = .ok 10 ∧
    batch_assess
      (fun n => if n = 3 then (.error "boom" : Except String ℕ) else .ok (n * 10))
      [1, 2, 3, 4, 5] = [10, 20, 40, 50] :=
  ⟨rfl,
   (C2_batch_assess_failure_isolation ℕ ℕ).2
     (fun n => if n = 3 then .error "boom" else .ok (n * 10))
     1 2 3 4 5 10 20 40 50 "boom" rfl rfl rfl rfl rfl⟩

/-! ### Association-list and `add_result` helper lemmas -/

theorem getTM_setTM_self (l : List (String × TierMetrics)) (k : String)
    (v : TierMetrics) : getTM (setTM l k v) k = some v := by
  induction l with
  | nil => simp [setTM, getTM]
  | cons kv rest ih =>
      obtain ⟨k0, v0⟩ := kv
      by_cases h : k0 = k
      · subst h
        simp [setTM, getTM]
      · simp [setTM, getTM, h, ih]

theorem getTM_setTM_ne (l : List (String × TierMetrics)) (k : String)
    (v : TierMetrics) (k' : String) (h : k' ≠ k) :
    getTM (setTM l k v) k' = getTM l k' := by
  have hne : ¬k = k' := fun he => h he.symm
  induction l with
  | nil => simp [setTM, getTM, hne]
  | cons kv rest ih =>
      obtain ⟨k0, v0⟩ := kv
      by_cases h0 : k0 = k
      · subst h0
        simp [setTM, getTM, hne]
      · simp [setTM, getTM, h0, ih]

theorem getTM_modifyTM_self (l : List (String × TierMetrics)) (k : String)
    (f : TierMetrics → TierMetrics) :
    getTM (modifyTM l k f) k = (getTM l k).map f := by
  unfold modifyTM
  cases h : getTM l k with
  | none => simp [h]
  | some tm => simp [getTM_setTM_self]

theorem getTM_modifyTM_ne (l : List (String × TierMetrics)) (k : String)
    (f : TierMetrics → TierMetrics) (k' : String) (h : k' ≠ k) :
    getTM (modifyTM l k f) k' = getTM l k' := by
  unfold modifyTM
  cases h2 : getTM l k with
  | none => rfl
  | some tm => simp [getTM_setTM_ne _ _ _ _ h]

/-- Read the per-tier counters out of the metrics map; an absent entry
reads as the fresh entry's zero counters. -/
def tpOf : Option TierMetrics → ℕ
  | some tm => tm.true_positives
  | none => 0

def fpOf : Option TierMetrics → ℕ
  | some tm => tm.false_positives
  | none => 0

def fnOf : Option TierMetrics → ℕ
  | some tm => tm.false_negatives
  | none => 0

def ValidationMetrics.tp (m : ValidationMetrics) (k : String) : ℕ :=
  tpOf (getTM m.tier_metrics k)

def ValidationMetrics.fp (m : ValidationMetrics) (k : String) : ℕ :=
  fpOf (getTM m.tier_metrics k)

def ValidationMetrics.fn (m : ValidationMetrics) (k : String) : ℕ :=
  fnOf (getTM m.tier_metrics k)

theorem ensureTier_getTM (m : ValidationMetrics) (t : ActionabilityTier)
    (k : String) :
    getTM (m.ensureTier t).tier_metrics k =
      if k = t.value ∧ getTM m.tier_metrics t.value = none then
        some { tier := t }
      else getTM m.tier_metrics k := by
  unfold ValidationMetrics.ensureTier
  cases h : getTM m.tier_metrics t.value with
  | some tm => simp [h]
  | none =>
      by_cases hk : k = t.value
      · subst hk
        simp [h, getTM_setTM_self]
      · simp [h, hk, getTM_setTM_ne _ _ _ _ hk]

theorem ensureTier_tp (m : ValidationMetrics) (t : ActionabilityTier)
    (k : String) : (m.ensureTier t).tp k = m.tp k := by
  unfold ValidationMetrics.tp
  rw [ensureTier_getTM]
  split
  · rename_i h
    rw [h.1, h.2]
    rfl
  · rfl

theorem ensureTier_fp (m : ValidationMetrics) (t : ActionabilityTier)
    (k : String) : (m.ensureTier t).fp k = m.fp k := by
  unfold ValidationMetrics.fp
  rw [ensureTier_getTM]
  split
  · rename_i h
    rw [h.1, h.2]
    rfl
  · rfl

theorem ensureTier_fn (m : ValidationMetrics) (t : ActionabilityTier)
    (k : String) : (m.ensureTier t).fn k = m.fn k := by
  unfold ValidationMetrics.fn
  rw [ensureTier_getTM]
  split
  · rename_i h
    rw [h.1, h.2]
    rfl
  · rfl

theorem ensureTier_self_isSome (m : ValidationMetrics)
    (t : ActionabilityTier) :
    (getTM (m.ensureTier t).tier_metrics t.value).isSome := by
  rw [ensureTier_getTM]
  split
  · rfl
  · rename_i h
    rw [Classical.not_and_iff_or_not_not] at h
    rcases h with h | h
    · exact absurd rfl h
    · cases h2 : getTM m.tier_metrics t.value with
      | none => exact absurd h2 h
      | some tm => rfl

theorem ensureTier_isSome_mono (m : ValidationMetrics)
    (t : ActionabilityTier) (k : String)
    (h : (getTM m.tier_metrics k).isSome) :
    (getTM (m.ensureTier t).tier_metrics k).isSome := by
  rw [ensureTier_getTM]
  split
  · rfl
  · exact h

theorem ensureTier_total (m : ValidationMetrics) (t : ActionabilityTier) :
    (m.ensureTier t).total_cases = m.total_cases := by
  unfold ValidationMetrics.ensureTier
  cases getTM m.tier_metrics t.value <;> rfl

theorem ensureTier_correct (m : ValidationMetrics) (t : ActionabilityTier) :
    (m.ensureTier t).correct_predictions = m.correct_predictions := by
  unfold ValidationMetrics.ensureTier
  cases getTM m.tier_metrics t.value <;> rfl

theorem ensureTier_failure (m : ValidationMetrics) (t : ActionabilityTier) :
    (m.ensureTier t).failure_analysis = m.failure_analysis := by
  unfold ValidationMetrics.ensureTier
  cases getTM m.tier_metrics t.value <;> rfl

/-- Members of the five-member tier enum with distinct identities have
distinct `.value` strings. -/
theorem tier_value_injective :
    ∀ a b : ActionabilityTier, a.value = b.value → a = b := by
  intro a b h
  cases a <;> cases b <;> first | rfl | exact absurd h (by decide)

/-- `self.total_cases += 1`. -/
def bumpTotal (m : ValidationMetrics) : ValidationMetrics :=
  { m with total_cases := m.total_cases + 1 }

/-- `self.correct_predictions += 1`. -/
def bumpCorrect (m : ValidationMetrics) : ValidationMetrics :=
  { m with correct_predictions := m.correct_predictions + 1 }

/-- The state of `add_result` after the count updates and the tier-entry
initialization loop, before the confusion-matrix update. -/
def midState (m : ValidationMetrics) (r : ValidationResult) : ValidationMetrics :=
  (((if r.is_correct then bumpCorrect (bumpTotal m) else bumpTotal m).ensureTier
    r.expected_tier).ensureTier r.predicted_tier)

/-- Normal form of `add_result` on a correct result. -/
theorem add_result_eq_correct (m : ValidationMetrics) (r : ValidationResult)
    (hc : r.is_correct = true) :
    m.add_result r =
      { midState m r with
        tier_metrics := (modifyTM (midState m r).tier_metrics
          r.expected_tier.value tpAdd) } := by
  unfold ValidationMetrics.add_result midState bumpTotal bumpCorrect
  rw [hc]
  rfl

/-- Normal form of `add_result` on an incorrect result. -/
theorem add_result_eq_incorrect (m : ValidationMetrics) (r : ValidationResult)
    (hc : r.is_correct = false) :
    m.add_result r =
      { midState m r with
        tier_metrics := (modifyTM (modifyTM (midState m r).tier_metrics
          r.expected_tier.value fnAdd) r.predicted_tier.value fpAdd),
        failure_analysis := (midState m r).failure_analysis ++ [failureRecord r] } := by
  unfold ValidationMetrics.add_result midState bumpTotal bumpCorrect
  rw [hc]
  rfl

theorem midState_tp (m : ValidationMetrics) (r : ValidationResult)
    (k : String) : (midState m r).tp k = m.tp k := by
  unfold midState
  rw [ensureTier_tp, ensureTier_tp]
  cases r.is_correct <;> rfl

theorem midState_fp (m : ValidationMetrics) (r : ValidationResult)
    (k : String) : (midState m r).fp k = m.fp k := by
  unfold midState
  rw [ensureTier_fp, ensureTier_fp]
  cases r.is_correct <;> rfl

theorem midState_fn (m : ValidationMetrics) (r : ValidationResult)
    (k : String) : (midState m r).fn k = m.fn k := by
  unfold midState
  rw [ensureTier_fn, ensureTier_fn]
  cases r.is_correct <;> rfl

theorem midState_total (m : ValidationMetrics) (r : ValidationResult) :
    (midState m r).total_cases = m.total_cases + 1 := by
  unfold midState
  rw [ensureTier_total, ensureTier_total]
  cases r.is_correct <;> rfl

theorem midState_correct (m : ValidationMetrics) (r : ValidationResult) :
    (midState m r).correct_predictions =
      m.correct_predictions + (if r.is_correct then 1 else 0) := by
  unfold midState
  rw [ensureTier_correct, ensureTier_correct]
  cases r.is_correct <;> rfl

theorem midState_failure (m : ValidationMetrics) (r : ValidationResult) :
    (midState m r).failure_analysis = m.failure_analysis := by
  unfold midState
  rw [ensureTier_failure, ensureTier_failure]
  cases r.is_correct <;> rfl

theorem midState_expected_isSome (m : ValidationMetrics)
    (r : ValidationResult) :
    (getTM (midState m r).tier_metrics r.expected_tier.value).isSome := by
  unfold midState
  exact ensureTier_isSome_mono _ _ _ (ensureTier_self_isSome _ _)

theorem midState_predicted_isSome (m : ValidationMetrics)
    (r : ValidationResult) :
    (getTM (midState m r).tier_metrics r.predicted_tier.value).isSome := by
  unfold midState
  exact ensureTier_self_isSome _ _

theorem tpOf_map_tpAdd (o : Option TierMetrics) (h : o.isSome) :
    tpOf (o.map tpAdd) = tpOf o + 1 := by
  cases o with
  | none => simp at h
  | some tm => rfl

theorem fnOf_map_fnAdd (o : Option TierMetrics) (h : o.isSome) :
    fnOf (o.map fnAdd) = fnOf o + 1 := by
  cases o with
  | none => simp at h
  | some tm => rfl

theorem fpOf_map_fpAdd (o : Option TierMetrics) (h : o.isSome) :
    fpOf (o.map fpAdd) = fpOf o + 1 := by
  cases o with
  | none => simp at h
  | some tm => rfl

theorem fpOf_map_tpAdd (o : Option TierMetrics) :
    fpOf (o.map tpAdd) = fpOf o := by cases o <;> rfl

theorem fnOf_map_tpAdd (o : Option TierMetrics) :
    fnOf (o.map tpAdd) = fnOf o := by cases o <;> rfl

theorem tpOf_map_fnAdd (o : Option TierMetrics) :
    tpOf (o.map fnAdd) = tpOf o := by cases o <;> rfl

theorem fpOf_map_fnAdd (o : Option TierMetrics) :
    fpOf (o.map fnAdd) = fpOf o := by cases o <;> rfl

theorem tpOf_map_fpAdd (o : Option TierMetrics) :
    tpOf (o.map fpAdd) = tpOf o := by cases o <;> rfl

theorem fnOf_map_fpAdd (o : Option TierMetrics) :
    fnOf (o.map fpAdd) = fnOf o := by cases o <;> rfl

/-- C3: folding a `ValidationResult` into `ValidationMetrics` via
`add_result` updates the confusion counters as specified: a correct
prediction increments only the expected tier's `true_positives`; an
incorrect prediction (expected ≠ predicted, as `is_correct` is defined)
increments the expected tier's `false_negatives` and the predicted tier's
`false_positives` — two different tiers' entries — leaving every other
counter unchanged. -/
theorem C3_add_result_confusion_counters (m : ValidationMetrics)
    (r : ValidationResult) :
    (r.is_correct = true →
      (m.add_result r).tp r.expected_tier.value
          = m.tp r.expected_tier.value + 1 ∧
      (∀ k, k ≠ r.expected_tier.value → (m.add_result r).tp k = m.tp k) ∧
      (∀ k, (m.add_result r).fp k = m.fp k) ∧
      (∀ k, (m.add_result r).fn k = m.fn k)) ∧
    (r.is_correct = false → r.expected_tier ≠ r.predicted_tier →
      r.expected_tier.value ≠ r.predicted_tier.value ∧
      (m.add_result r).fn r.expected_tier.value
          = m.fn r.expected_tier.value + 1 ∧
      (m.add_result r).fp r.predicted_tier.value
          = m.fp r.predicted_tier.value + 1 ∧
      (∀ k, (m.add_result r).tp k = m.tp k) ∧
      (∀ k, k ≠ r.expected_tier.value → (m.add_result r).fn k = m.fn k) ∧
      (∀ k, k ≠ r.predicted_tier.value → (m.add_result r).fp k = m.fp k)) := by
  constructor
  · intro hc
    rw [add_result_eq_correct m r hc]
    refine ⟨?_, ?_, ?_, ?_⟩
    · simp only [ValidationMetrics.tp]
      rw [getTM_modifyTM_self, tpOf_map_tpAdd _ (midState_expected_isSome m r)]
      exact congrArg (· + 1) (midState_tp m r _)
    · intro k hk
      simp only [ValidationMetrics.tp]
      rw [getTM_modifyTM_ne _ _ _ _ hk]
      exact midState_tp m r k
    · intro k
      simp only [ValidationMetrics.fp]
      by_cases hk : k = r.expected_tier.value
      · subst hk
        rw [getTM_modifyTM_self, fpOf_map_tpAdd]
        exact midState_fp m r _
      · rw [getTM_modifyTM_ne _ _ _ _ hk]
        exact midState_fp m r k
    · intro k
      simp only [ValidationMetrics.fn]
      by_cases hk : k = r.expected_tier.value
      · subst hk
        rw [getTM_modifyTM_self, fnOf_map_tpAdd]
        exact midState_fn m r _
      · rw [getTM_modifyTM_ne _ _ _ _ hk]
        exact midState_fn m r k
  · intro hc hne
    have hkne : r.expected_tier.value ≠ r.predicted_tier.value :=
      fun h => hne (tier_value_injective _ _ h)
    rw [add_result_eq_incorrect m r hc]
    refine ⟨hkne, ?_, ?_, ?_, ?_, ?_⟩
    · simp only [ValidationMetrics.fn]
      rw [getTM_modifyTM_ne _ _ _ _ hkne, getTM_modifyTM_self,
        fnOf_map_fnAdd _ (midState_expected_isSome m r)]
      exact congrArg (· + 1) (midState_fn m r _)
    · simp only [ValidationMetrics.fp]
      rw [getTM_modifyTM_self, getTM_modifyTM_ne _ _ _ _ hkne.symm,
        fpOf_map_fpAdd _ (midState_predicted_isSome m r)]
      exact congrArg (· + 1) (midState_fp m r _)
    · intro k
      simp only [ValidationMetrics.tp]
      by_cases hk2 : k = r.predicted_tier.value
      · subst hk2
        rw [getTM_modifyTM_self, tpOf_map_fpAdd,
          getTM_modifyTM_ne _ _ _ _ hkne.symm]
        exact midState_tp m r _
      · rw [getTM_modifyTM_ne _ _ _ _ hk2]
        by_cases hk1 : k = r.expected_tier.value
        · subst hk1
          rw [getTM_modifyTM_self, tpOf_map_fnAdd]
          exact midState_tp m r _
        · rw [getTM_modifyTM_ne _ _ _ _ hk1]
          exact midState_tp m r k
    · intro k hk1
      simp only [ValidationMetrics.fn]
      by_cases hk2 : k = r.predicted_tier.value
      · subst hk2
        rw [getTM_modifyTM_self, fnOf_map_fpAdd,
          getTM_modifyTM_ne _ _ _ _ hkne.symm]
        exact midState_fn m r _
      · rw [getTM_modifyTM_ne _ _ _ _ hk2, getTM_modifyTM_ne _ _ _ _ hk1]
        exact midState_fn m r k
    · intro k hk2
      simp only [ValidationMetrics.fp]
      rw [getTM_modifyTM_ne _ _ _ _ hk2]
      by_cases hk1 : k = r.expected_tier.value
      · subst hk1
        rw [getTM_modifyTM_self, fpOf_map_fnAdd]
        exact midState_fp m r _
      · rw [getTM_modifyTM_ne _ _ _ _ hk1]
        exact midState_fp m r k

/-- Witness for C3 at concrete results: a correct Tier I prediction and a
Tier I mispredicted as Tier II. -/
theorem C3_add_result_confusion_counters_witness :
    ((sampleResult .tierI .tierI true).is_correct = true ∧
     (ValidationMetrics.init.add_result (sampleResult .tierI .tierI true)).tp
        (sampleResult .tierI .tierI true).expected_tier.value
       = ValidationMetrics.init.tp
          (sampleResult .tierI .tierI true).expected_tier.value + 1) ∧
    ((sampleResult .tierI .tierII false).is_correct = false ∧
     (sampleResult .tierI .tierII false).expected_tier ≠
       (sampleResult .tierI .tierII false).predicted_tier ∧
     (ValidationMetrics.init.add_result (sampleResult .tierI .tierII false)).fn
        (sampleResult .tierI .tierII false).expected_tier.value
       = ValidationMetrics.init.fn
          (sampleResult .tierI .tierII false).expected_tier.value + 1 ∧
     (ValidationMetrics.init.add_result (sampleResult .tierI .tierII false)).fp
        (sampleResult .tierI .tierII false).predicted_tier.value
       = ValidationMetrics.init.fp
          (sampleResult .tierI .tierII false).predicted_tier.value + 1) :=
  ⟨⟨rfl,
    ((C3_add_result_confusion_counters ValidationMetrics.init
      (sampleResult .tierI .tierI true)).1 rfl).1⟩,
   ⟨rfl, by decide,
    ((C3_add_result_confusion_counters ValidationMetrics.init
      (sampleResult .tierI .tierII false)).2 rfl (by decide)).2.1,
    ((C3_add_result_confusion_counters ValidationMetrics.init
      (sampleResult .tierI .tierII false)).2 rfl (by decide)).2.2.1⟩⟩

theorem add_result_total (m : ValidationMetrics) (r : ValidationResult) :
    (m.add_result r).total_cases = m.total_cases + 1 := by
  cases hc : r.is_correct
  · rw [add_result_eq_incorrect m r hc]
    exact midState_total m r
  · rw [add_result_eq_correct m r hc]
    exact midState_total m r

theorem add_result_correct_count (m : ValidationMetrics) (r : ValidationResult) :
    (m.add_result r).correct_predictions
      = m.correct_predictions + (if r.is_correct then 1 else 0) := by
  cases hc : r.is_correct
  · rw [add_result_eq_incorrect m r hc]
    have h := midState_correct m r
    rw [hc] at h
    exact h
  · rw [add_result_eq_correct m r hc]
    have h := midState_correct m r
    rw [hc] at h
    exact h

theorem add_result_failure_analysis (m : ValidationMetrics)
    (r : ValidationResult) :
    (m.add_result r).failure_analysis
      = m.failure_analysis
        ++ (if r.is_correct then [] else [failureRecord r]) := by
  cases hc : r.is_correct
  · rw [add_result_eq_incorrect m r hc]
    show (midState m r).failure_analysis ++ [failureRecord r] = _
    rw [midState_failure]
    rfl
  · rw [add_result_eq_correct m r hc]
    show (midState m r).failure_analysis = _
    rw [midState_failure]
    simp

/-- The fold of `add_result` over a list of results, characterized on the
three scalar fields of the accumulator. -/
theorem fold_add_result_counts (results : List ValidationResult)
    (m : ValidationMetrics) :
    (results.foldl ValidationMetrics.add_result m).total_cases
      = m.total_cases + results.length ∧
    (results.foldl ValidationMetrics.add_result m).correct_predictions
      = m.correct_predictions + results.countP (fun r => r.is_correct) ∧
    (results.foldl ValidationMetrics.add_result m).failure_analysis
      = m.failure_analysis
        ++ (results.filter (fun r => !r.is_correct)).map failureRecord := by
  induction results generalizing m with
  | nil => simp
  | cons r rs ih =>
      obtain ⟨ht, hcorr, hfail⟩ := ih (m.add_result r)
      refine ⟨?_, ?_, ?_⟩
      · rw [List.foldl_cons, ht, add_result_total]
        simp
        omega
      · rw [List.foldl_cons, hcorr, add_result_correct_count,
          List.countP_cons]
        cases hc : r.is_correct <;> (simp [hc]; try omega)
      · rw [List.foldl_cons, hfail, add_result_failure_analysis,
          List.filter_cons]
        cases hc : r.is_correct <;> simp [hc]

theorem countP_correct_split (l : List ValidationResult) :
    l.countP (fun r => r.is_correct)
      + (l.filter (fun r => !r.is_correct)).length = l.length := by
  induction l with
  | nil => rfl
  | cons r rs ih =>
      rw [List.countP_cons, List.filter_cons]
      cases hc : r.is_correct <;> simp [hc] <;> omega

/-- C10: each `add_result` call increments `total_cases` by exactly one and
either increments `correct_predictions` (correct result, no failure record)
or appends exactly one failure record (incorrect result), never both and
never neither; hence after any fold from a fresh `ValidationMetrics`,
`total_cases = correct_predictions + len(failure_analysis)`. -/
theorem C10_add_result_invariant :
    (∀ (m : ValidationMetrics) (r : ValidationResult),
      (m.add_result r).total_cases = m.total_cases + 1 ∧
      (r.is_correct = true →
        (m.add_result r).correct_predictions = m.correct_predictions + 1 ∧
        (m.add_result r).failure_analysis = m.failure_analysis) ∧
      (r.is_correct = false →
        (m.add_result r).correct_predictions = m.correct_predictions ∧
        (m.add_result r).failure_analysis
          = m.failure_analysis ++ [failureRecord r])) ∧
    (∀ results : List ValidationResult,
      (results.foldl ValidationMetrics.add_result
        ValidationMetrics.init).total_cases
        = (results.foldl ValidationMetrics.add_result
            ValidationMetrics.init).correct_predictions
          + (results.foldl ValidationMetrics.add_result
              ValidationMetrics.init).failure_analysis.length) := by
  constructor
  · intro m r
    refine ⟨add_result_total m r, ?_, ?_⟩
    · intro hc
      constructor
      · rw [add_result_correct_count, hc]
        rfl
      · rw [add_result_failure_analysis, hc]
        simp
    · intro hc
      constructor
      · rw [add_result_correct_count, hc]
        rfl
      · rw [add_result_failure_analysis, hc]
        rfl
  · intro results
    obtain ⟨ht, hcorr, hfail⟩ :=
      fold_add_result_counts results ValidationMetrics.init
    rw [ht, hcorr, hfail]
    show 0 + results.length = 0 + _ + ([] ++ _).length
    rw [List.nil_append, List.length_map]
    have := countP_correct_split results
    omega

/-- Witness for C10 at a two-result fold (one correct, one incorrect). -/
theorem C10_add_result_invariant_witness :
    ((ValidationMetrics.init.add_result
        (sampleResult .tierI .tierI true)).total_cases
      = ValidationMetrics.init.total_cases + 1 ∧
     ((sampleResult .tierI .tierI true).is_correct = true ∧
      (ValidationMetrics.init.add_result
        (sampleResult .tierI .tierI true)).correct_predictions
        = ValidationMetrics.init.correct_predictions + 1)) ∧
    ([sampleResult .tierI .tierI true,
      sampleResult .tierI .tierII false].foldl
        ValidationMetrics.add_result ValidationMetrics.init).total_cases
      = ([sampleResult .tierI .tierI true,
          sampleResult .tierI .tierII false].foldl
            ValidationMetrics.add_result ValidationMetrics.init).correct_predictions
        + ([sampleResult .tierI .tierI true,
            sampleResult .tierI .tierII false].foldl
              ValidationMetrics.add_result
              ValidationMetrics.init).failure_analysis.length :=
  ⟨⟨(C10_add_result_invariant.1 ValidationMetrics.init
      (sampleResult .tierI .tierI true)).1,
    rfl,
    ((C10_add_result_invariant.1 ValidationMetrics.init
      (sampleResult .tierI .tierI true)).2.1 rfl).1⟩,
   C10_add_result_invariant.2
     [sampleResult .tierI .tierI true, sampleResult .tierI .tierII false]⟩

/-- Normal form of `calculate` from a fresh accumulator on a non-empty
result list. -/
theorem calculate_init_eq (results : List ValidationResult)
    (h : results ≠ []) :
    ValidationMetrics.init.calculate results =
      { (results.foldl ValidationMetrics.add_result ValidationMetrics.init) with
        accuracy :=
          (((results.foldl ValidationMetrics.add_result
              ValidationMetrics.init).correct_predictions : ℚ)
            / ((results.foldl ValidationMetrics.add_result
                ValidationMetrics.init).total_cases : ℚ)),
        average_confidence :=
          ((results.map (fun r => r.confidence_score)).sum
            / (results.length : ℚ)),
        tier_metrics :=
          ((results.foldl ValidationMetrics.add_result
              ValidationMetrics.init).tier_metrics.map
            (fun kv => (kv.1, kv.2.calculate))) } := by
  have hne : results.isEmpty = false := by simpa using h
  have htot : (results.foldl ValidationMetrics.add_result
      ValidationMetrics.init).total_cases > 0 := by
    rw [(fold_add_result_counts results ValidationMetrics.init).1]
    cases results with
    | nil => exact absurd rfl h
    | cons r rs => simp
  unfold ValidationMetrics.calculate
  rw [hne]
  simp only [Bool.false_eq_true, if_false]
  rw [if_pos htot]

/-- C7: folding `n` results of which exactly `k` are incorrect gives
`correct_predictions = n - k`, `accuracy = (n-k)/n` (0 when there are no
cases), exactly `k` failure-analysis entries in processing order, and
`average_confidence` equal to the mean confidence (0 when there are no
results). -/
theorem C7_calculate_metrics (results : List ValidationResult) :
    (ValidationMetrics.init.calculate results).correct_predictions
      = results.length - (results.filter (fun r => !r.is_correct)).length ∧
    (results.length = 0 →
      (ValidationMetrics.init.calculate results).accuracy = 0) ∧
    (0 < results.length →
      (ValidationMetrics.init.calculate results).accuracy
        = ((results.length
            - (results.filter (fun r => !r.is_correct)).length : ℕ) : ℚ)
          / (results.length : ℚ)) ∧
    (ValidationMetrics.init.calculate results).failure_analysis
      = (results.filter (fun r => !r.is_correct)).map failureRecord ∧
    (ValidationMetrics.init.calculate results).failure_analysis.length
      = (results.filter (fun r => !r.is_correct)).length ∧
    (ValidationMetrics.init.calculate results).average_confidence
      = (if results.length = 0 then 0
         else (results.map (fun r => r.confidence_score)).sum
           / (results.length : ℚ)) := by
  by_cases h : results = []
  · subst h
    refine ⟨rfl, fun _ => rfl, fun h0 => absurd h0 (by simp), rfl, rfl, rfl⟩
  · obtain ⟨ht, hcorr, hfail⟩ :=
      fold_add_result_counts results ValidationMetrics.init
    have hk := countP_correct_split results
    have hlen : results.length ≠ 0 := fun h0 => h (List.length_eq_zero.mp h0)
    rw [calculate_init_eq results h]
    have hcorr' : (results.foldl ValidationMetrics.add_result
        ValidationMetrics.init).correct_predictions
        = results.length - (results.filter (fun r => !r.is_correct)).length := by
      rw [hcorr]
      show 0 + _ = _
      omega
    refine ⟨hcorr', fun h0 => absurd h0 hlen, fun _ => ?_, ?_, ?_, ?_⟩
    · show ((results.foldl ValidationMetrics.add_result
          ValidationMetrics.init).correct_predictions : ℚ) / _ = _
      rw [hcorr', ht]
      norm_num [ValidationMetrics.init]
    · show (results.foldl ValidationMetrics.add_result
          ValidationMetrics.init).failure_analysis = _
      rw [hfail]
      rfl
    · show (results.foldl ValidationMetrics.add_result
          ValidationMetrics.init).failure_analysis.length = _
      rw [hfail]
      simp [ValidationMetrics.init]
    · show _ = if results.length = 0 then _ else _
      rw [if_neg hlen]

/-- Witness for C7 at a concrete two-result fold (one correct, one
incorrect), discharging the `0 < n` hypothesis of the accuracy clause. -/
theorem C7_calculate_metrics_witness :
    0 < ([sampleResult .tierI .tierI true,
          sampleResult .tierI .tierII false] : List ValidationResult).length ∧
    (ValidationMetrics.init.calculate
        [sampleResult .tierI .tierI true,
         sampleResult .tierI .tierII false]).accuracy
      = ((([sampleResult .tierI .tierI true,
            sampleResult .tierI .tierII false] : List ValidationResult).length
          - (([sampleResult .tierI .tierI true,
              sampleResult .tierI .tierII false] : List ValidationResult).filter
              (fun r => !r.is_correct)).length : ℕ) : ℚ)
        / (([sampleResult .tierI .tierI true,
            sampleResult .tierI .tierII false] : List ValidationResult).length : ℚ) :=
  ⟨by decide,
   (C7_calculate_metrics
      [sampleResult .tierI .tierI true,
       sampleResult .tierI .tierII false]).2.2.1 (by decide)⟩

/-! ### Schema coercion (C1, C9) -/

theorem create_ok_identity (g v t : String) (tier : ActionabilityTier)
    (conf : ℚ) (s rat : String) (ths : List RecommendedTherapy)
    (es : Option String) (cta : Bool) (refs : List String)
    (a : ActionabilityAssessment)
    (h : ActionabilityAssessment.create g v t tier conf s ths rat es cta refs
      = some a) : a.gene = g ∧ a.variant = v ∧ a.tumor_type = t := by
  unfold ActionabilityAssessment.create at h
  split at h
  · exact absurd h (by simp)
  · injection h with h
    subst h
    exact ⟨rfl, rfl, rfl⟩

/-- `round(0.5, 3) = 0.5`. -/
theorem round3_half : round3 (1/2 : ℚ) = 1/2 := by
  unfold round3
  rw [round_eq]
  norm_num

/-- Reduction of the coercion once the `tier` key is known present. -/
theorem validate_and_create_tier_some (d : ResponseData) (g v t s : String)
    (hs : d.tier = some s) :
    validate_and_create_assessment d g v t =
      match ActionabilityAssessment.create g v t (parse_tier_with_fallback s)
          (d.confidence_score.getD (1/2 : ℚ))
          (d.summary.getD "No summary provided")
          (d.recommended_therapies.getD [])
          (d.rationale.getD "No rationale provided")
          d.evidence_strength
          (d.clinical_trials_available.getD false)
          (d.references.getD []) with
      | some a => .ok a
      | none => .error "Failed to validate LLM response: confidence out of range" := by
  unfold validate_and_create_assessment
  rw [hs]

/-- C1: the `tier` key is mandatory (its absence is the unified service
error); an unrecognized tier string degrades to `Unknown` without raising
(whenever the confidence field itself validates, as it always does when
absent); every other absent field is filled with its documented default. -/
theorem C1_coercion_tier_mandatory_defaults (d : ResponseData)
    (g v t : String) :
    (d.tier = none →
      validate_and_create_assessment d g v t
        = .error "Failed to create assessment: Missing required field: tier") ∧
    (∀ s, d.tier = some s → ActionabilityTier.ofValue s = none →
      validate_confidence (d.confidence_score.getD (1/2 : ℚ)) ≠ none →
      ∃ a, validate_and_create_assessment d g v t = .ok a ∧
        a.tier = ActionabilityTier.unknown) ∧
    (∀ s, d.tier = some s → d.confidence_score = none → d.summary = none →
      d.rationale = none → d.recommended_therapies = none →
      d.references = none → d.clinical_trials_available = none →
      d.evidence_strength = none →
      ∃ a, validate_and_create_assessment d g v t = .ok a ∧
        a.confidence_score = 1/2 ∧ a.summary = "No summary provided" ∧
        a.rationale = "No rationale provided" ∧
        a.recommended_therapies = [] ∧ a.references = [] ∧
        a.clinical_trials_available = false ∧
        a.evidence_strength = none) := by
  refine ⟨?_, ?_, ?_⟩
  · intro h
    unfold validate_and_create_assessment
    rw [h]
  · intro s hs hof hvc
    obtain ⟨c, hc⟩ : ∃ c,
        validate_confidence (d.confidence_score.getD (1/2 : ℚ)) = some c := by
      cases h2 : validate_confidence (d.confidence_score.getD (1/2 : ℚ)) with
      | none => exact absurd h2 hvc
      | some c => exact ⟨c, rfl⟩
    have hparse : parse_tier_with_fallback s = ActionabilityTier.unknown := by
      unfold parse_tier_with_fallback
      rw [hof]
    rw [validate_and_create_tier_some d g v t s hs, hparse]
    simp only [ActionabilityAssessment.create, hc]
    exact ⟨_, rfl, rfl⟩
  · intro s hs h1 h2 h3 h4 h5 h6 h7
    rw [validate_and_create_tier_some d g v t s hs]
    rw [h1, h2, h3, h4, h5, h6, h7]
    have hvc : validate_confidence ((none : Option ℚ).getD (1/2 : ℚ))
        = some (1/2 : ℚ) := by
      unfold validate_confidence
      rw [if_pos (by norm_num), Option.getD_none, round3_half]
    simp only [ActionabilityAssessment.create, hvc]
    exact ⟨_, rfl, rfl, rfl, rfl, rfl, rfl, rfl, rfl⟩

/-- Witness for C1: missing `tier` errors; `"Tier Z"` with all other
fields absent coerces to an `Unknown`-tier assessment with the documented
defaults. -/
theorem C1_coercion_tier_mandatory_defaults_witness :
    (({} : ResponseData).tier = none ∧
     validate_and_create_assessment {} "BRAF" "V600E" "Melanoma"
       = .error "Failed to create assessment: Missing required field: tier") ∧
    (({ tier := some "Tier Z" } : ResponseData).tier = some "Tier Z" ∧
     ActionabilityTier.ofValue "Tier Z" = none ∧
     ∃ a, validate_and_create_assessment { tier := some "Tier Z" }
         "BRAF" "V600E" "Melanoma" = .ok a ∧
       a.tier = ActionabilityTier.unknown) ∧
    (∃ a, validate_and_create_assessment { tier := some "Tier Z" }
        "BRAF" "V600E" "Melanoma" = .ok a ∧
      a.confidence_score = 1/2 ∧ a.summary = "No summary provided" ∧
      a.rationale = "No rationale provided" ∧
      a.recommended_therapies = [] ∧ a.references = [] ∧
      a.clinical_trials_available = false ∧
      a.evidence_strength = none) :=
  ⟨⟨rfl, (C1_coercion_tier_mandatory_defaults {} "BRAF" "V600E" "Melanoma").1 rfl⟩,
   ⟨rfl, rfl,
    (C1_coercion_tier_mandatory_defaults { tier := some "Tier Z" }
      "BRAF" "V600E" "Melanoma").2.1 "Tier Z" rfl rfl (by
        intro h
        have hred : ({ tier := some "Tier Z" } : ResponseData).confidence_score
            = none := rfl
        rw [hred, Option.getD_none] at h
        unfold validate_confidence at h
        rw [if_pos (by norm_num)] at h
        exact Option.noConfusion h)⟩,
   (C1_coercion_tier_mandatory_defaults { tier := some "Tier Z" }
     "BRAF" "V600E" "Melanoma").2.2 "Tier Z" rfl rfl rfl rfl rfl rfl rfl rfl⟩

/-- C9: the produced assessment carries the `gene`, `variant` and
`tumor_type` passed as arguments to the coercion call; `gene`, `variant`
or `tumor_type` keys inside the model's JSON are ignored and cannot
override the requested variant's identity. -/
theorem C9_identity_from_arguments (d : ResponseData) (g v t : String) :
    (∀ a, validate_and_create_assessment d g v t = .ok a →
      a.gene = g ∧ a.variant = v ∧ a.tumor_type = t) ∧
    (∀ g' v' t',
      validate_and_create_assessment
        { d with gene := g', variant := v', tumor_type := t' } g v t
        = validate_and_create_assessment d g v t) := by
  constructor
  · intro a ha
    unfold validate_and_create_assessment at ha
    split at ha
    · exact absurd ha (by simp)
    · split at ha
      · rename_i a' ha'
        injection ha with ha
        subst ha
        exact create_ok_identity _ _ _ _ _ _ _ _ _ _ _ _ ha'
      · exact absurd ha (by simp)
  · intro g' v' t'
    rfl

/-- Witness for C9: a payload that tries to override the identity fields
is ignored; the produced assessment carries the caller's identity. -/
theorem C9_identity_from_arguments_witness :
    (validate_and_create_assessment
        { tier := some "Tier I", gene := some "TP53", variant := some "R175H",
          tumor_type := some "Breast" } "BRAF" "V600E" "Melanoma"
      = validate_and_create_assessment { tier := some "Tier I" }
          "BRAF" "V600E" "Melanoma") ∧
    (∀ a, validate_and_create_assessment { tier := some "Tier I" }
        "BRAF" "V600E" "Melanoma" = .ok a →
      a.gene = "BRAF" ∧ a.variant = "V600E" ∧ a.tumor_type = "Melanoma") :=
  ⟨(C9_identity_from_arguments { tier := some "Tier I" }
      "BRAF" "V600E" "Melanoma").2 (some "TP53") (some "R175H") (some "Breast"),
   (C9_identity_from_arguments { tier := some "Tier I" }
      "BRAF" "V600E" "Melanoma").1⟩

/-! ### Retry policy (C6) -/

theorem attempt_once_ok_ne_nil (x : Except String (List Char))
    (c : List Char) (h : attempt_once x = .ok c) : c ≠ [] := by
  cases x with
  | error e => simp [attempt_once] at h
  | ok content =>
      simp only [attempt_once] at h
      by_cases he : content.isEmpty
      · rw [if_pos he] at h
        exact absurd h (by simp)
      · rw [if_neg he] at h
        injection h with h
        subst h
        intro hnil
        rw [hnil] at he
        exact he rfl

theorem attempt_once_empty (x : Except String (List Char))
    (h : x = .ok []) :
    attempt_once x = .error "LLM API call failed: Empty response from LLM" := by
  subst h
  rfl

/-- C6: the completion call is attempted at most 3 times; the backoff
waits follow the clamped exponential schedule (first wait 2, all waits in
`[2, 10]`); an empty-content response is raised as a failure and never
returned as a valid result; when every attempt fails, a single wrapped
error surfaces. -/
theorem C6_retry_policy (oracle : ℕ → Except String (List Char)) :
    (call_llm oracle).attempts ≤ 3 ∧
    (call_llm oracle).waits
      = (List.range ((call_llm oracle).attempts - 1)).map
          (fun i => retryWait (i + 1)) ∧
    (∀ w ∈ (call_llm oracle).waits, 2 ≤ w ∧ w ≤ 10) ∧
    ((call_llm oracle).waits ≠ [] → (call_llm oracle).waits.head? = some 2) ∧
    (∀ c, (call_llm oracle).result = .ok c → c ≠ []) ∧
    (∀ i, oracle i = .ok [] →
      attempt_once (oracle i)
        = .error "LLM API call failed: Empty response from LLM") ∧
    ((∀ i, i < 3 → ∃ e, attempt_once (oracle i) = .error e) →
      ∃ e, (call_llm oracle).result = .error e) := by
  cases h0 : attempt_once (oracle 0) with
  | ok c0 =>
      have ht : call_llm oracle
          = { result := .ok c0, attempts := 1, waits := [] } := by
        simp [call_llm, retryLoop, h0]
      rw [ht]
      refine ⟨by norm_num, by simp, by simp, by simp, ?_, ?_, ?_⟩
      · intro c hc
        injection hc with hc
        subst hc
        exact attempt_once_ok_ne_nil _ _ h0
      · intro i hi
        exact attempt_once_empty _ hi
      · intro hfail
        obtain ⟨e, he⟩ := hfail 0 (by norm_num)
        rw [h0] at he
        exact absurd he (by simp)
  | error e0 =>
      cases h1 : attempt_once (oracle 1) with
      | ok c1 =>
          have ht : call_llm oracle
              = { result := .ok c1, attempts := 2, waits := [retryWait 1] } := by
            simp [call_llm, retryLoop, h0, h1]
          rw [ht]
          refine ⟨by norm_num,
            by show [retryWait 1]
                = (List.range (2 - 1)).map (fun i => retryWait (i + 1)); decide,
            by show ∀ w ∈ [retryWait 1], 2 ≤ w ∧ w ≤ 10; decide,
            by show [retryWait 1] ≠ [] →
                ([retryWait 1] : List ℕ).head? = some 2; decide,
            ?_, ?_, ?_⟩
          · intro c hc
            injection hc with hc
            subst hc
            exact attempt_once_ok_ne_nil _ _ h1
          · intro i hi
            exact attempt_once_empty _ hi
          · intro hfail
            obtain ⟨e, he⟩ := hfail 1 (by norm_num)
            rw [h1] at he
            exact absurd he (by simp)
      | error e1 =>
          cases h2 : attempt_once (oracle 2) with
          | ok c2 =>
              have ht : call_llm oracle
                  = { result := .ok c2, attempts := 3,
                      waits := [retryWait 1, retryWait 2] } := by
                simp [call_llm, retryLoop, h0, h1, h2]
              rw [ht]
              refine ⟨by norm_num,
                by show [retryWait 1, retryWait 2]
                    = (List.range (3 - 1)).map (fun i => retryWait (i + 1)); decide,
                by show ∀ w ∈ [retryWait 1, retryWait 2], 2 ≤ w ∧ w ≤ 10; decide,
                by show [retryWait 1, retryWait 2] ≠ [] →
                    ([retryWait 1, retryWait 2] : List ℕ).head? = some 2; decide,
                ?_, ?_, ?_⟩
              · intro c hc
                injection hc with hc
                subst hc
                exact attempt_once_ok_ne_nil _ _ h2
              · intro i hi
                exact attempt_once_empty _ hi
              · intro hfail
                obtain ⟨e, he⟩ := hfail 2 (by norm_num)
                rw [h2] at he
                exact absurd he (by simp)
          | error e2 =>
              have ht : call_llm oracle
                  = { result := .error e2, attempts := 3,
                      waits := [retryWait 1, retryWait 2] } := by
                simp [call_llm, retryLoop, h0, h1, h2]
              rw [ht]
              refine ⟨by norm_num,
                by show [retryWait 1, retryWait 2]
                    = (List.range (3 - 1)).map (fun i => retryWait (i + 1)); decide,
                by show ∀ w ∈ [retryWait 1, retryWait 2], 2 ≤ w ∧ w ≤ 10; decide,
                by show [retryWait 1, retryWait 2] ≠ [] →
                    ([retryWait 1, retryWait 2] : List ℕ).head? = some 2; decide,
                ?_, ?_, ?_⟩
              · intro c hc
                exact absurd hc (by simp)
              · intro i hi
                exact attempt_once_empty _ hi
              · intro _
                exact ⟨e2, rfl⟩

/-- Witness for C6: an always-failing endpoint makes exactly 3 attempts
with waits 2 and 4, and surfaces a single wrapped error. -/
theorem C6_retry_policy_witness :
    (call_llm (fun _ => .error "boom")).attempts ≤ 3 ∧
    (∀ i, i < 3 →
      ∃ e, attempt_once ((fun _ => (.error "boom" : Except String (List Char))) i)
        = .error e) ∧
    (∃ e, (call_llm (fun _ => (.error "boom" : Except String (List Char)))).result
      = .error e) :=
  ⟨(C6_retry_policy (fun _ => .error "boom")).1,
   fun _ _ => ⟨"LLM API call failed: boom", rfl⟩,
   (C6_retry_policy (fun _ => .error "boom")).2.2.2.2.2.2
     (fun _ _ => ⟨"LLM API call failed: boom", rfl⟩)⟩

/-! ### JSON fence stripping (C5) -/

theorem pyIsSpace_backtick : pyIsSpace '`' = false := rfl

theorem pyIsSpace_newline : pyIsSpace '\n' = true := rfl

/-- A list with a non-whitespace head survives `dropWhile`, whatever
follows it. -/
theorem dropWhile_append_eq_self (p r : List Char) (hn : p ≠ [])
    (hh : ∀ c ∈ p.head?, pyIsSpace c = false) :
    (p ++ r).dropWhile pyIsSpace = p ++ r := by
  cases p with
  | nil => exact absurd rfl hn
  | cons c cs =>
      have hc : pyIsSpace c = false := hh c rfl
      simp [List.dropWhile_cons, hc]

theorem dropWhile_eq_self_of_head (p : List Char) (hn : p ≠ [])
    (hh : ∀ c ∈ p.head?, pyIsSpace c = false) :
    p.dropWhile pyIsSpace = p := by
  have h := dropWhile_append_eq_self p [] hn hh
  simpa using h

/-- A payload with no surrounding whitespace is fixed by `pyStrip`. -/
theorem pyStrip_eq_self (p : List Char) (hn : p ≠ [])
    (hh : ∀ c ∈ p.head?, pyIsSpace c = false)
    (hl : ∀ c ∈ p.getLast?, pyIsSpace c = false) :
    pyStrip p = p := by
  unfold pyStrip
  rw [dropWhile_eq_self_of_head p hn hh]
  rw [dropWhile_eq_self_of_head p.reverse (by simpa using hn)
    (by intro c hc; rw [List.head?_reverse] at hc; exact hl c hc)]
  exact List.reverse_reverse p

/-- Stripping the trailing `"\n```"` then the surrounding whitespace
recovers the payload. -/
theorem fence_tail_strip (p : List Char) (hn : p ≠ [])
    (hh : ∀ c ∈ p.head?, pyIsSpace c = false)
    (hl : ∀ c ∈ p.getLast?, pyIsSpace c = false) :
    pyStrip (if ("```".toList).isSuffixOf ('\n' :: (p ++ ['\n', '`', '`', '`']))
      then ('\n' :: (p ++ ['\n', '`', '`', '`'])).take
        (('\n' :: (p ++ ['\n', '`', '`', '`'])).length - 3)
      else '\n' :: (p ++ ['\n', '`', '`', '`'])) = p := by
  have hrev : ('\n' :: (p ++ ['\n', '`', '`', '`'])).reverse
      = (['`', '`', '`', '\n'] ++ p.reverse) ++ ['\n'] := by
    simp
  have hsuf : ("```".toList).isSuffixOf
      ('\n' :: (p ++ ['\n', '`', '`', '`'])) = true := by
    show (("```".toList).reverse).isPrefixOf
      (('\n' :: (p ++ ['\n', '`', '`', '`'])).reverse) = true
    rw [hrev]
    rfl
  rw [hsuf]
  rw [if_pos rfl]
  have hlen : ('\n' :: (p ++ ['\n', '`', '`', '`'])).length - 3
      = p.length + 2 := by
    simp
  rw [hlen]
  have htake : ('\n' :: (p ++ ['\n', '`', '`', '`'])).take (p.length + 2)
      = '\n' :: (p ++ ['\n']) := by
    rw [show p.length + 2 = (p.length + 1) + 1 from rfl]
    rw [List.take_succ_cons]
    rw [List.take_append_eq_append_take]
    rw [List.take_of_length_le (by omega)]
    norm_num
  rw [htake]
  unfold pyStrip
  rw [show ('\n' :: (p ++ ['\n'])).dropWhile pyIsSpace
      = (p ++ ['\n']).dropWhile pyIsSpace from by
    simp [List.dropWhile_cons, pyIsSpace_newline]]
  rw [dropWhile_append_eq_self p ['\n'] hn hh]
  rw [show (p ++ ['\n']).reverse = '\n' :: p.reverse from by simp]
  rw [show ('\n' :: p.reverse).dropWhile pyIsSpace
      = p.reverse.dropWhile pyIsSpace from by
    simp [List.dropWhile_cons, pyIsSpace_newline]]
  rw [dropWhile_eq_self_of_head p.reverse (by simpa using hn)
    (by intro c hc; rw [List.head?_reverse] at hc; exact hl c hc)]
  exact List.reverse_reverse p

theorem stripFences_json_fenced (p : List Char) (hn : p ≠ [])
    (hh : ∀ c ∈ p.head?, pyIsSpace c = false)
    (hl : ∀ c ∈ p.getLast?, pyIsSpace c = false) :
    stripFences (['`', '`', '`', 'j', 's', 'o', 'n', '\n'] ++ p
      ++ ['\n', '`', '`', '`']) = p := by
  have h1 : pyStrip (['`', '`', '`', 'j', 's', 'o', 'n', '\n'] ++ p
      ++ ['\n', '`', '`', '`'])
      = ['`', '`', '`', 'j', 's', 'o', 'n', '\n'] ++ p
        ++ ['\n', '`', '`', '`'] := by
    unfold pyStrip
    rw [dropWhile_append_eq_self
      (['`', '`', '`', 'j', 's', 'o', 'n', '\n'] ++ p) ['\n', '`', '`', '`']
      (by simp)
      (by intro c hc; simp at hc; rw [← hc]; rfl)]
    rw [show ((['`', '`', '`', 'j', 's', 'o', 'n', '\n'] ++ p)
        ++ ['\n', '`', '`', '`']).reverse
      = ['`', '`', '`', '\n'] ++ (p.reverse
        ++ ['\n', 'n', 'o', 's', 'j', '`', '`', '`']) from by simp]
    rw [dropWhile_append_eq_self ['`', '`', '`', '\n']
      (p.reverse ++ ['\n', 'n', 'o', 's', 'j', '`', '`', '`'])
      (by simp) (by intro c hc; simp at hc; rw [← hc]; rfl)]
    rw [show (['`', '`', '`', '\n'] : List Char)
        ++ (p.reverse ++ ['\n', 'n', 'o', 's', 'j', '`', '`', '`'])
      = ((['`', '`', '`', 'j', 's', 'o', 'n', '\n'] ++ p)
        ++ ['\n', '`', '`', '`']).reverse from by simp]
    exact List.reverse_reverse _
  unfold stripFences
  simp only [h1]
  rw [show ("```json".toList).isPrefixOf
      (['`', '`', '`', 'j', 's', 'o', 'n', '\n'] ++ p
        ++ ['\n', '`', '`', '`']) = true from rfl]
  rw [if_pos rfl]
  rw [show (['`', '`', '`', 'j', 's', 'o', 'n', '\n'] ++ p
      ++ ['\n', '`', '`', '`']).drop 7
    = '\n' :: (p ++ ['\n', '`', '`', '`']) from rfl]
  exact fence_tail_strip p hn hh hl

theorem stripFences_bare_fenced (p : List Char) (hn : p ≠ [])
    (hh : ∀ c ∈ p.head?, pyIsSpace c = false)
    (hl : ∀ c ∈ p.getLast?, pyIsSpace c = false) :
    stripFences (['`', '`', '`', '\n'] ++ p ++ ['\n', '`', '`', '`']) = p := by
  have h1 : pyStrip (['`', '`', '`', '\n'] ++ p ++ ['\n', '`', '`', '`'])
      = ['`', '`', '`', '\n'] ++ p ++ ['\n', '`', '`', '`'] := by
    unfold pyStrip
    rw [dropWhile_append_eq_self
      (['`', '`', '`', '\n'] ++ p) ['\n', '`', '`', '`']
      (by simp)
      (by intro c hc; simp at hc; rw [← hc]; rfl)]
    rw [show ((['`', '`', '`', '\n'] ++ p) ++ ['\n', '`', '`', '`']).reverse
      = ['`', '`', '`', '\n'] ++ (p.reverse ++ ['\n', '`', '`', '`']) from by
        simp]
    rw [dropWhile_append_eq_self ['`', '`', '`', '\n']
      (p.reverse ++ ['\n', '`', '`', '`'])
      (by simp) (by intro c hc; simp at hc; rw [← hc]; rfl)]
    rw [show (['`', '`', '`', '\n'] : List Char)
        ++ (p.reverse ++ ['\n', '`', '`', '`'])
      = ((['`', '`', '`', '\n'] ++ p) ++ ['\n', '`', '`', '`']).reverse from by
        simp]
    exact List.reverse_reverse _
  unfold stripFences
  simp only [h1,
    show ("```json".toList).isPrefixOf
      (['`', '`', '`', '\n'] ++ p ++ ['\n', '`', '`', '`']) = false from rfl,
    show ("```".toList).isPrefixOf
      (['`', '`', '`', '\n'] ++ p ++ ['\n', '`', '`', '`']) = true from rfl,
    Bool.false_eq_true, eq_self_iff_true, if_false, if_true]
  rw [show (['`', '`', '`', '\n'] ++ p ++ ['\n', '`', '`', '`']).drop 3
    = '\n' :: (p ++ ['\n', '`', '`', '`']) from rfl]
  exact fence_tail_strip p hn hh hl

theorem stripFences_eq_self (p : List Char) (hn : p ≠ [])
    (hh : ∀ c ∈ p.head?, pyIsSpace c = false)
    (hl : ∀ c ∈ p.getLast?, pyIsSpace c = false)
    (hpre : ("```".toList).isPrefixOf p = false)
    (hsuf : ("```".toList).isSuffixOf p = false) :
    stripFences p = p := by
  have hpre7 : ("```json".toList).isPrefixOf p = false := by
    cases h : ("```json".toList).isPrefixOf p
    · rfl
    · exfalso
      have h1 : "```json".toList <+: p := List.isPrefixOf_iff_prefix.mp h
      have h2 : "```".toList <+: "```json".toList := ⟨"json".toList, rfl⟩
      have h3 := List.isPrefixOf_iff_prefix.mpr (h2.trans h1)
      rw [hpre] at h3
      exact Bool.noConfusion h3
  unfold stripFences
  simp only [pyStrip_eq_self p hn hh hl, hpre7, hpre, hsuf,
    Bool.false_eq_true, if_false]

/-- C5: JSON extraction strips surrounding whitespace and code-fence
markers (with or without the `json` language tag), so a fenced payload and
the same payload bare parse to the identical structured result; text that
is not valid JSON after fence stripping raises the unified malformed-output
error; and the parse step is never retried — the attempt count of
`assess_variant` comes from the completion call alone, whatever the parse
outcome. -/
theorem C5_json_extraction (loads : List Char → Option ResponseData)
    (p : List Char) (hn : p ≠ [])
    (hh : ∀ c ∈ p.head?, pyIsSpace c = false)
    (hl : ∀ c ∈ p.getLast?, pyIsSpace c = false)
    (hpre : ("```".toList).isPrefixOf p = false)
    (hsuf : ("```".toList).isSuffixOf p = false) :
    parse_json_response loads ("```json\n".toList ++ p ++ "\n```".toList)
      = parse_json_response loads p ∧
    parse_json_response loads ("```\n".toList ++ p ++ "\n```".toList)
      = parse_json_response loads p ∧
    (∀ s, loads (stripFences s) = none →
      parse_json_response loads s = .error "Invalid JSON response from LLM") ∧
    (∀ (oracle : ℕ → Except String (List Char)) (g v t : String),
      (assess_variant oracle loads g v t).2 = (call_llm oracle).attempts) ∧
    (∀ (oracle : ℕ → Except String (List Char)) (g v t : String)
      (c : List Char),
      (call_llm oracle).result = .ok c → loads (stripFences c) = none →
      (assess_variant oracle loads g v t).1
        = .error "Invalid JSON response from LLM") := by
  have hA : "```json\n".toList = ['`', '`', '`', 'j', 's', 'o', 'n', '\n'] := rfl
  have hB : "\n```".toList = ['\n', '`', '`', '`'] := rfl
  have hC : "```\n".toList = ['`', '`', '`', '\n'] := rfl
  refine ⟨?_, ?_, ?_, ?_, ?_⟩
  · unfold parse_json_response
    rw [hA, hB, stripFences_json_fenced p hn hh hl,
      stripFences_eq_self p hn hh hl hpre hsuf]
  · unfold parse_json_response
    rw [hC, hB, stripFences_bare_fenced p hn hh hl,
      stripFences_eq_self p hn hh hl hpre hsuf]
  · intro s hload
    unfold parse_json_response
    rw [hload]
  · intro oracle g v t
    simp only [assess_variant]
    cases hres : (call_llm oracle).result with
    | error e => rfl
    | ok c =>
        cases hp : parse_json_response loads c <;> simp [hp]
  · intro oracle g v t c hres hload
    have hp : parse_json_response loads c
        = .error "Invalid JSON response from LLM" := by
      unfold parse_json_response
      rw [hload]
    simp only [assess_variant, hres, hp]

/-- Witness for C5 at the payload `{}` and an always-failing parser. -/
theorem C5_json_extraction_witness :
    (['{', '}'] : List Char) ≠ [] ∧
    ("```".toList).isPrefixOf (['{', '}'] : List Char) = false ∧
    parse_json_response (fun _ => (none : Option ResponseData))
        ("```json\n".toList ++ ['{', '}'] ++ "\n```".toList)
      = parse_json_response (fun _ => (none : Option ResponseData))
          ['{', '}'] :=
  ⟨by decide, rfl,
   (C5_json_extraction (fun _ => none) ['{', '}'] (by decide)
     (by intro c hc; simp at hc; subst hc; rfl)
     (by intro c hc; simp at hc; subst hc; rfl)
     rfl rfl).1⟩

end TumorBoard
